import Mathlib

/- Verification of the zatAcademy backend core against its specification.

   Shallow embedding conventions:
   - Timestamps are naturals (milliseconds since epoch); JWT iat and exp
     claims are naturals in seconds, as in the source.
   - JavaScript numbers used for percentages are idealized as exact
     rationals.
   - Mongoose documents become Lean structures; a save applies the
     pre-save hook as a pure function on the record.
   - Database collections touched by the claims are explicit state,
     threaded through the operations. -/

namespace ZatAcademy

/- ===================== Cache layer: models/AnalyticsCache.js =====================

   analyticsCacheSchema.statics.set upserts by key with
   expiresAt = Date.now() + ttl * 1000; statics.get returns null when
   the key is absent or cache.expiresAt < new Date(), and cache.data
   otherwise. -/

structure CacheEntry (α : Type) where
  key : String
  data : α
  expiresAt : Nat
  createdAt : Nat
deriving DecidableEq

abbrev CacheStore (α : Type) : Type := List (CacheEntry α)

/-- findOneAndUpdate with upsert: replace the first entry with this key,
or append when no entry has it. -/
def upsertByKey : CacheStore α → CacheEntry α → CacheStore α
  | [], e => [e]
  | c :: rest, e => if c.key == e.key then e :: rest else c :: upsertByKey rest e

/-- AnalyticsCache.set, from models/AnalyticsCache.js lines 30-43. -/
def cacheSet (store : CacheStore α) (key : String) (data : α) (ttl : Nat) (now : Nat) :
    CacheStore α :=
  upsertByKey store { key := key, data := data, expiresAt := now + ttl * 1000, createdAt := now }

/-- AnalyticsCache.get, from models/AnalyticsCache.js lines 45-53: null when
absent or when expiresAt < now (strict comparison in the source). -/
def cacheGet (store : CacheStore α) (key : String) (now : Nat) : Option α :=
  match store.find? (fun c => c.key == key) with
  | none => none
  | some c => if c.expiresAt < now then none else some c.data

/- ============ Analytics cache-aside read path: utils/analyticsCalculator.js ============

   getSystemAnalytics(timeRange): reads cacheGet first and returns the hit;
   on a miss it computes the analytics object, then performs
   `await AnalyticsCache.set(cacheKey, analytics, ttl)` with no error
   handling around it, and only afterwards returns the value.  The
   aggregation itself is irrelevant to claim C7 and is abstracted as the
   parameter `computed`; `setOk` models whether the awaited cache write
   succeeds or rejects.  ttl is 300 for the "24h" range and 3600 otherwise. -/

def getSystemAnalytics (store : CacheStore α) (timeRange : String) (computed : α)
    (setOk : Bool) (now : Nat) : Except String α × CacheStore α :=
  let cacheKey := "system_analytics_" ++ timeRange
  match cacheGet store cacheKey now with
  | some cached => (.ok cached, store)
  | none =>
    let ttl := if timeRange == "24h" then 300 else 3600
    if setOk then (.ok computed, cacheSet store cacheKey computed ttl now)
    else (.error "cache write failed", store)

/- Lemmas about the cache. -/

theorem upsertByKey_find (store : CacheStore α) (e : CacheEntry α) :
    (upsertByKey store e).find? (fun c => c.key == e.key) = some e := by
  induction store with
  | nil => simp [upsertByKey, List.find?]
  | cons c rest ih =>
    by_cases h : c.key == e.key
    · simp [upsertByKey, h, List.find?]
    · simp only [upsertByKey, h, if_false, Bool.false_eq_true]
      rw [List.find?]
      simp [h, ih]

theorem cacheGet_cacheSet (store : CacheStore α) (k : String) (v : α) (ttl now now' : Nat) :
    cacheGet (cacheSet store k v ttl now) k now' =
      if now + ttl * 1000 < now' then none else some v := by
  unfold cacheGet cacheSet
  rw [upsertByKey_find store { key := k, data := v, expiresAt := now + ttl * 1000, createdAt := now }]

/-- C8: cache set stores expiresAt = now + ttl*1000 at the key (upsert), and get
returns the stored value while now' is at or before expiresAt, none strictly after
expiresAt, and none when the key is absent.  (The boundary differs from the claim:
at the instant now' = expiresAt the source still returns the value, because the
expiry test in AnalyticsCache.get is the strict `cache.expiresAt < new Date()`.) -/
theorem cache_set_get_semantics (α : Type) (store : CacheStore α) (k : String) (v : α)
    (ttl now now' : Nat) (habsent : ∀ e ∈ store, e.key ≠ k) :
    (cacheGet (cacheSet store k v ttl now) k now' =
      if now + ttl * 1000 < now' then none else some v) ∧
    cacheGet store k now' = none := by
  refine ⟨cacheGet_cacheSet store k v ttl now now', ?_⟩
  unfold cacheGet
  have : store.find? (fun c => c.key == k) = none := by
    rw [List.find?_eq_none]
    intro e he
    simp [habsent e he]
  rw [this]

/-- C8 witness: concrete run of the amended cache semantics. -/
theorem cache_set_get_semantics_witness :
    ((cacheGet (cacheSet ([] : CacheStore Nat) "k" 1 1 0) "k" 500 =
      if 0 + 1 * 1000 < 500 then none else some 1) ∧
     cacheGet ([] : CacheStore Nat) "k" 500 = none) :=
  cache_set_get_semantics Nat [] "k" 1 1 0 500 (by intro e he; cases he)

/-- C8 counterexample: set "k" with ttl 1 second at time 0 gives expiresAt = 1000;
the claim says get at the instant now = expiresAt returns null, but the source
returns the stored value (the expiry test is strict less-than). -/
theorem cacheGet_at_expiry_instant :
    cacheGet (cacheSet ([] : CacheStore Nat) "k" 1 1 0) "k" 1000 = some 1 := by
  decide

/-- C7 counterexample: on a cache miss with a failing cache write, getSystemAnalytics
propagates the error instead of returning the computed analytics value 42. -/
theorem getSystemAnalytics_set_failure_fails_read :
    (getSystemAnalytics ([] : CacheStore Nat) "30d" 42 false 0).1 =
      Except.error "cache write failed" := by
  rfl

/-- C7 amended: the cache write after a miss is awaited with no error handling,
so its failure fails the read; the computed value is returned only when the
write succeeds. -/
theorem getSystemAnalytics_write_failure (α : Type) (store : CacheStore α)
    (timeRange : String) (computed : α) (now : Nat)
    (hmiss : cacheGet store ("system_analytics_" ++ timeRange) now = none) :
    (getSystemAnalytics store timeRange computed false now).1 =
       Except.error "cache write failed" ∧
    (getSystemAnalytics store timeRange computed true now).1 = Except.ok computed := by
  simp only [getSystemAnalytics, hmiss]
  exact ⟨rfl, rfl⟩

/-- C7 witness: concrete miss with a failing write, and with a succeeding write. -/
theorem getSystemAnalytics_write_failure_witness :
    (getSystemAnalytics ([] : CacheStore Nat) "30d" 42 false 7).1 =
       Except.error "cache write failed" ∧
    (getSystemAnalytics ([] : CacheStore Nat) "30d" 42 true 7).1 = Except.ok 42 :=
  getSystemAnalytics_write_failure Nat [] "30d" 42 7 (by rfl)

/- ===================== Progress engine: models/SessionMaterial.js =====================

   progressSchema with its pre-save hook, updateRiskAssessment, updateStreak
   and the static calculateForStudent, plus the service wrappers in
   services/ProgressService.js. -/

inductive Severity where
  | low
  | medium
  | high
deriving DecidableEq

structure RiskFactor where
  factor : String
  severity : Severity
  detectedAt : Nat
deriving DecidableEq

structure MaterialProgressItem where
  material : Nat
  status : String
deriving DecidableEq

structure AssignmentProgressItem where
  assignment : Nat
  submission : Option Nat
  status : String
deriving DecidableEq

/-- The fields of a Progress document used by the hook, the streak update,
the risk assessment and the calculate path.  Percentage fields default to 0,
streaks to 0, lastActive to none; see the schema defaults in
models/SessionMaterial.js. -/
structure ProgressRecord where
  course : Option Nat
  materialProgress : List MaterialProgressItem
  assignmentProgress : List AssignmentProgressItem
  totalMaterials : Nat
  completedMaterials : Nat
  materialCompletionPercentage : ℚ
  totalSessions : Nat
  attendedSessions : Nat
  attendancePercentage : ℚ
  totalAssignments : Nat
  submittedAssignments : Nat
  gradedAssignments : Nat
  assignmentCompletionPercentage : ℚ
  overallProgress : ℚ
  lastActive : Option Nat
  isAtRisk : Bool
  riskFactors : List RiskFactor
  lastRiskAssessment : Option Nat
  currentStreak : Nat
  longestStreak : Nat
  streakUpdatedAt : Option Nat
  updatedAt : Nat
  lastCalculated : Option Nat
deriving DecidableEq

def msPerDay : Nat := 86400000

def dayOf (t : Nat) : Nat := t / msPerDay

/-- The daysSinceLastActive virtual: 999 when lastActive is unset, otherwise
the floor of the elapsed time in days. -/
def daysSinceLastActive (now : Nat) (r : ProgressRecord) : Nat :=
  match r.lastActive with
  | none => 999
  | some l => (now - l) / msPerDay

/-- The risk-factor list built by updateRiskAssessment, in source order:
attendance, material completion, assignment submission, inactivity. -/
def riskFactorsFor (now : Nat) (attendance material assignment : ℚ) (days : Nat) :
    List RiskFactor :=
  (if attendance < 70 then
    [{ factor := "low_attendance",
       severity := if attendance < 50 then .high else .medium, detectedAt := now }]
   else []) ++
  (if material < 60 then
    [{ factor := "low_material_completion",
       severity := if material < 40 then .high else .medium, detectedAt := now }]
   else []) ++
  (if assignment < 50 then
    [{ factor := "low_assignment_submission",
       severity := if assignment < 30 then .high else .medium, detectedAt := now }]
   else []) ++
  (if 7 < days then
    [{ factor := "inactive_for_7_days", severity := .high, detectedAt := now }]
   else [])

/-- progressSchema.methods.updateRiskAssessment: recomputes the risk-factor
list from the current percentages and inactivity, and sets
isAtRisk = (riskFactors.length > 0). -/
def updateRiskAssessment (now : Nat) (r : ProgressRecord) : ProgressRecord :=
  let rf := riskFactorsFor now r.attendancePercentage r.materialCompletionPercentage
      r.assignmentCompletionPercentage (daysSinceLastActive now r)
  { r with isAtRisk := decide (rf.length > 0), riskFactors := rf,
           lastRiskAssessment := some now }

/-- The material percentage the pre-save hook leaves in the record: recomputed
from the counts when totalMaterials > 0, otherwise the stored value unchanged. -/
def mval (r : ProgressRecord) : ℚ :=
  if 0 < r.totalMaterials then (r.completedMaterials : ℚ) / (r.totalMaterials : ℚ) * 100
  else r.materialCompletionPercentage

/-- The attendance percentage after the pre-save hook. -/
def aval (r : ProgressRecord) : ℚ :=
  if 0 < r.totalSessions then (r.attendedSessions : ℚ) / (r.totalSessions : ℚ) * 100
  else r.attendancePercentage

/-- The assignment percentage after the pre-save hook. -/
def sval (r : ProgressRecord) : ℚ :=
  if 0 < r.totalAssignments then (r.submittedAssignments : ℚ) / (r.totalAssignments : ℚ) * 100
  else r.assignmentCompletionPercentage

/-- progressSchema.pre-save hook: recomputes each category percentage from the
counts only when the corresponding total is positive (otherwise the stored
value is left as it was), sets overallProgress to the 0.4/0.2/0.4 weighted sum,
and runs updateRiskAssessment. -/
def preSave (now : Nat) (r : ProgressRecord) : ProgressRecord :=
  let m := mval r
  let a := aval r
  let s := sval r
  let overall := m * (4 / 10) + a * (2 / 10) + s * (4 / 10)
  updateRiskAssessment now
    { r with updatedAt := now,
             materialCompletionPercentage := m,
             attendancePercentage := a,
             assignmentCompletionPercentage := s,
             overallProgress := overall }

/-- progressSchema.methods.updateStreak.  The source compares the calendar day
of lastActive with today: day difference 0 leaves the streak, 1 increments it,
more than 1 resets it to 1; with no lastActive both streaks are set to 1.
longestStreak is then raised to currentStreak when smaller, and lastActive is
set to now. -/
def updateStreak (now : Nat) (r : ProgressRecord) : ProgressRecord :=
  let cs := match r.lastActive with
    | none => 1
    | some l =>
      let d := dayOf now - dayOf l
      if d = 0 then r.currentStreak
      else if d = 1 then r.currentStreak + 1
      else 1
  let lsBase := match r.lastActive with
    | none => 1
    | some _ => r.longestStreak
  let ls := if lsBase < cs then cs else lsBase
  { r with currentStreak := cs, longestStreak := ls,
           streakUpdatedAt := some now, lastActive := some now }

/- The collections read by Progress.calculateForStudent, reduced to the fields
   the queries and the calculation use. -/

structure Material where
  id : Nat
  course : Option Nat
  isPublished : Bool
deriving DecidableEq

structure LiveSession where
  id : Nat
  status : String
deriving DecidableEq

structure Assignment where
  id : Nat
  course : Option Nat
  isPublished : Bool
deriving DecidableEq

structure Submission where
  id : Nat
  assignment : Nat
  isGraded : Bool
deriving DecidableEq

/-- The database state seen by the progress engine for one (student, batch)
pair: the enrollment check, the batch collections, and the stored
Progress document. -/
structure World where
  enrollmentActive : Bool
  materials : List Material
  sessions : List LiveSession
  assignments : List Assignment
  submissions : List Submission
  progress : Option ProgressRecord
deriving DecidableEq

/-- The per-assignment status list built by calculateForStudent: the first
submission matching the assignment decides graded / submitted / not started. -/
def assignmentProgressOf (w : World) : List AssignmentProgressItem :=
  (w.assignments.filter (·.isPublished)).map (fun a =>
    match w.submissions.find? (fun s => s.assignment == a.id) with
    | some s => { assignment := a.id, submission := some s.id,
                  status := if s.isGraded then "graded" else "submitted" }
    | none => { assignment := a.id, submission := none, status := "not_started" })

/-- The Progress document built by Progress.calculateForStudent just before
its save: queries published materials, completed/ongoing sessions, published
assignments and the student submissions, rebuilds the per-item lists,
recomputes the counts (completedMaterials and attendedSessions are the
hard-coded zeros of the source), and creates or updates the document. -/
def calcBase (w : World) (now : Nat) : ProgressRecord :=
  let materials := w.materials.filter (·.isPublished)
  let sessions := w.sessions.filter (fun s => s.status == "completed" || s.status == "ongoing")
  let assignments := w.assignments.filter (·.isPublished)
  let assignmentProgress : List AssignmentProgressItem := assignmentProgressOf w
  let materialProgress : List MaterialProgressItem :=
    materials.map (fun m => { material := m.id, status := "not_started" })
  let completedMaterials := 0
  let attendedSessions := 0
  let submittedAssignments := (assignmentProgress.filter (fun ap => ap.status != "not_started")).length
  let gradedAssignments := (assignmentProgress.filter (fun ap => ap.status == "graded")).length
  let progress : ProgressRecord :=
    match w.progress with
    | none =>
      { course := (materials.head?.bind Material.course).orElse
          (fun _ => assignments.head?.bind Assignment.course),
        materialProgress := materialProgress,
        assignmentProgress := assignmentProgress,
        totalMaterials := materials.length,
        completedMaterials := completedMaterials,
        materialCompletionPercentage := 0,
        totalSessions := sessions.length,
        attendedSessions := attendedSessions,
        attendancePercentage := 0,
        totalAssignments := assignments.length,
        submittedAssignments := submittedAssignments,
        gradedAssignments := gradedAssignments,
        assignmentCompletionPercentage := 0,
        overallProgress := 0,
        lastActive := none,
        isAtRisk := false,
        riskFactors := [],
        lastRiskAssessment := none,
        currentStreak := 0,
        longestStreak := 0,
        streakUpdatedAt := none,
        updatedAt := now,
        lastCalculated := some now }
    | some p =>
      { p with materialProgress := materialProgress,
               assignmentProgress := assignmentProgress,
               totalMaterials := materials.length,
               completedMaterials := completedMaterials,
               totalSessions := sessions.length,
               attendedSessions := attendedSessions,
               totalAssignments := assignments.length,
               submittedAssignments := submittedAssignments,
               gradedAssignments := gradedAssignments,
               lastCalculated := some now }
  progress

/-- Progress.calculateForStudent (models/SessionMaterial.js lines 702-797):
build or update the document, then save it (which runs the pre-save hook). -/
def calculateForStudent (w : World) (now : Nat) : ProgressRecord :=
  preSave now (calcBase w now)

/-- ProgressService.calculateStudentProgress: requires an active enrollment,
runs Progress.calculateForStudent (which saves), then updateStreak followed by
a second save, and returns the record. -/
def calculateStudentProgress (w : World) (now : Nat) :
    Except String (ProgressRecord × World) :=
  if w.enrollmentActive then
    let p := calculateForStudent w now
    let p2 := preSave now (updateStreak now p)
    .ok (p2, { w with progress := some p2 })
  else
    .error "Student not enrolled in this batch"

/-- Replace the first element satisfying p, or report that none does
(the findIndex / index-update idiom of the service code). -/
def updateFirstBy (p : α → Bool) (f : α → α) : List α → Option (List α)
  | [] => none
  | x :: xs => if p x then some (f x :: xs) else (updateFirstBy p f xs).map (x :: ·)

/-- ProgressService.updateMaterialProgress on a loaded Progress record: update
the matching materialProgress entry or push a new one, recount
completedMaterials as the entries with status completed, and save.
Only the status part of the merged progressData is modelled, which is the
part the recount reads. -/
def updateMaterialProgress (r : ProgressRecord) (materialId : Nat) (newStatus : String)
    (now : Nat) : ProgressRecord :=
  let mp := match updateFirstBy (fun m => m.material == materialId)
      (fun m => { m with status := newStatus }) r.materialProgress with
    | some l => l
    | none => r.materialProgress ++ [{ material := materialId, status := newStatus }]
  let completed := (mp.filter (fun m => m.status == "completed")).length
  preSave now { r with materialProgress := mp, completedMaterials := completed }

/- Projection facts about the save hook and the streak update. -/

@[simp] theorem preSave_materialPct (now : Nat) (r : ProgressRecord) :
    (preSave now r).materialCompletionPercentage = mval r := rfl

@[simp] theorem preSave_attendancePct (now : Nat) (r : ProgressRecord) :
    (preSave now r).attendancePercentage = aval r := rfl

@[simp] theorem preSave_assignmentPct (now : Nat) (r : ProgressRecord) :
    (preSave now r).assignmentCompletionPercentage = sval r := rfl

@[simp] theorem preSave_overall (now : Nat) (r : ProgressRecord) :
    (preSave now r).overallProgress =
      mval r * (4 / 10) + aval r * (2 / 10) + sval r * (4 / 10) := rfl

@[simp] theorem preSave_riskFactors (now : Nat) (r : ProgressRecord) :
    (preSave now r).riskFactors =
      riskFactorsFor now (aval r) (mval r) (sval r) (daysSinceLastActive now r) := rfl

@[simp] theorem preSave_isAtRisk (now : Nat) (r : ProgressRecord) :
    (preSave now r).isAtRisk =
      decide (0 < (riskFactorsFor now (aval r) (mval r) (sval r)
        (daysSinceLastActive now r)).length) := rfl

@[simp] theorem preSave_lastActive (now : Nat) (r : ProgressRecord) :
    (preSave now r).lastActive = r.lastActive := rfl

@[simp] theorem preSave_currentStreak (now : Nat) (r : ProgressRecord) :
    (preSave now r).currentStreak = r.currentStreak := rfl

@[simp] theorem preSave_longestStreak (now : Nat) (r : ProgressRecord) :
    (preSave now r).longestStreak = r.longestStreak := rfl

@[simp] theorem preSave_totalMaterials (now : Nat) (r : ProgressRecord) :
    (preSave now r).totalMaterials = r.totalMaterials := rfl

@[simp] theorem preSave_completedMaterials (now : Nat) (r : ProgressRecord) :
    (preSave now r).completedMaterials = r.completedMaterials := rfl

@[simp] theorem preSave_totalSessions (now : Nat) (r : ProgressRecord) :
    (preSave now r).totalSessions = r.totalSessions := rfl

@[simp] theorem preSave_attendedSessions (now : Nat) (r : ProgressRecord) :
    (preSave now r).attendedSessions = r.attendedSessions := rfl

@[simp] theorem preSave_totalAssignments (now : Nat) (r : ProgressRecord) :
    (preSave now r).totalAssignments = r.totalAssignments := rfl

@[simp] theorem preSave_submittedAssignments (now : Nat) (r : ProgressRecord) :
    (preSave now r).submittedAssignments = r.submittedAssignments := rfl

@[simp] theorem mval_preSave (now : Nat) (r : ProgressRecord) :
    mval (preSave now r) = mval r := by
  by_cases h : 0 < r.totalMaterials <;> simp [mval, h]

@[simp] theorem aval_preSave (now : Nat) (r : ProgressRecord) :
    aval (preSave now r) = aval r := by
  by_cases h : 0 < r.totalSessions <;> simp [aval, h]

@[simp] theorem sval_preSave (now : Nat) (r : ProgressRecord) :
    sval (preSave now r) = sval r := by
  by_cases h : 0 < r.totalAssignments <;> simp [sval, h]

@[simp] theorem mval_updateStreak (now : Nat) (r : ProgressRecord) :
    mval (updateStreak now r) = mval r := rfl

@[simp] theorem aval_updateStreak (now : Nat) (r : ProgressRecord) :
    aval (updateStreak now r) = aval r := rfl

@[simp] theorem sval_updateStreak (now : Nat) (r : ProgressRecord) :
    sval (updateStreak now r) = sval r := rfl

@[simp] theorem updateStreak_lastActive (now : Nat) (r : ProgressRecord) :
    (updateStreak now r).lastActive = some now := rfl

/- Claim theorems for the save hook. -/

/-- C3: after any save the record satisfies isAtRisk = (riskFactors nonempty),
and the risk fields of the saved record are recomputed, not carried over: the
save result does not depend on the incoming isAtRisk, riskFactors or
lastRiskAssessment values. -/
theorem save_risk_invariant (now : Nat) (r : ProgressRecord) (b : Bool)
    (l : List RiskFactor) (d : Option Nat) :
    ((preSave now r).isAtRisk = true ↔ (preSave now r).riskFactors ≠ []) ∧
    preSave now { r with isAtRisk := b, riskFactors := l, lastRiskAssessment := d } =
      preSave now r := by
  constructor
  · simp [preSave_isAtRisk, preSave_riskFactors, List.length_pos]
  · rfl

/-- C5: the streak update of updateStreak compares the calendar day of
lastActive with the day of the call: same day leaves currentStreak, exactly one
day later increments it, more than one day later resets it to 1, and
longestStreak always becomes max(longestStreak, currentStreak). -/
theorem streak_update_rules (r : ProgressRecord) (now t : Nat)
    (hla : r.lastActive = some t) :
    ((dayOf now = dayOf t → (updateStreak now r).currentStreak = r.currentStreak) ∧
     (dayOf now = dayOf t + 1 → (updateStreak now r).currentStreak = r.currentStreak + 1) ∧
     (dayOf t + 1 < dayOf now → (updateStreak now r).currentStreak = 1)) ∧
    (updateStreak now r).longestStreak =
      max r.longestStreak (updateStreak now r).currentStreak := by
  have hcs : (updateStreak now r).currentStreak =
      (if dayOf now - dayOf t = 0 then r.currentStreak
       else if dayOf now - dayOf t = 1 then r.currentStreak + 1 else 1) := by
    simp [updateStreak, hla]
  have hls : (updateStreak now r).longestStreak =
      (if r.longestStreak < (updateStreak now r).currentStreak then
        (updateStreak now r).currentStreak
       else r.longestStreak) := by
    simp only [updateStreak, hla]
  refine ⟨⟨?_, ?_, ?_⟩, ?_⟩
  · intro h
    have h0 : dayOf now - dayOf t = 0 := by omega
    rw [hcs, h0]
    simp
  · intro h
    have h0 : ¬(dayOf now - dayOf t = 0) := by omega
    have h1 : dayOf now - dayOf t = 1 := by omega
    rw [hcs, h1]
    simp
  · intro h
    have h0 : ¬(dayOf now - dayOf t = 0) := by omega
    have h1 : ¬(dayOf now - dayOf t = 1) := by omega
    rw [hcs]
    simp [h0, h1]
  · rw [hls]
    rcases Nat.lt_or_ge r.longestStreak ((updateStreak now r).currentStreak) with h | h
    · simp [h, Nat.max_eq_right (Nat.le_of_lt h)]
    · simp [Nat.not_lt.mpr h, Nat.max_eq_left h]

/-- A Progress record with every schema default and an activity at time 0,
used to instantiate the universally quantified theorems. -/
def sampleProgress : ProgressRecord :=
  { course := none, materialProgress := [], assignmentProgress := [],
    totalMaterials := 0, completedMaterials := 0, materialCompletionPercentage := 0,
    totalSessions := 0, attendedSessions := 0, attendancePercentage := 0,
    totalAssignments := 0, submittedAssignments := 0, gradedAssignments := 0,
    assignmentCompletionPercentage := 0, overallProgress := 0,
    lastActive := some 0, isAtRisk := false, riskFactors := [],
    lastRiskAssessment := none, currentStreak := 3, longestStreak := 3,
    streakUpdatedAt := none, updatedAt := 0, lastCalculated := none }

/-- C5 witness: the streak rules evaluated one day after an activity at time 0. -/
theorem streak_update_rules_witness :
    ((dayOf msPerDay = dayOf 0 →
        (updateStreak msPerDay sampleProgress).currentStreak = sampleProgress.currentStreak) ∧
     (dayOf msPerDay = dayOf 0 + 1 →
        (updateStreak msPerDay sampleProgress).currentStreak = sampleProgress.currentStreak + 1) ∧
     (dayOf 0 + 1 < dayOf msPerDay →
        (updateStreak msPerDay sampleProgress).currentStreak = 1)) ∧
    (updateStreak msPerDay sampleProgress).longestStreak =
      max sampleProgress.longestStreak (updateStreak msPerDay sampleProgress).currentStreak :=
  streak_update_rules sampleProgress msPerDay 0 rfl

/-- C6 amended: each category percentage is recomputed as completed/total*100
only when the total is positive; when the total is 0 the previously stored
percentage is retained unchanged (it is 0 only if it was already 0).  The
guard also means no division by zero is ever evaluated. -/
theorem save_category_percentages (now : Nat) (r : ProgressRecord) :
    ((preSave now r).materialCompletionPercentage =
      if 0 < r.totalMaterials then (r.completedMaterials : ℚ) / (r.totalMaterials : ℚ) * 100
      else r.materialCompletionPercentage) ∧
    ((preSave now r).attendancePercentage =
      if 0 < r.totalSessions then (r.attendedSessions : ℚ) / (r.totalSessions : ℚ) * 100
      else r.attendancePercentage) ∧
    ((preSave now r).assignmentCompletionPercentage =
      if 0 < r.totalAssignments then (r.submittedAssignments : ℚ) / (r.totalAssignments : ℚ) * 100
      else r.assignmentCompletionPercentage) :=
  ⟨rfl, rfl, rfl⟩

/-- A batch with a single published material and nothing else, with an active
enrollment; the starting point of the counterexample traces. -/
def oneMaterialWorld : World :=
  { enrollmentActive := true,
    materials := [{ id := 1, course := none, isPublished := true }],
    sessions := [], assignments := [], submissions := [], progress := none }

/-- The progress record of oneMaterialWorld after the student completes
material 1: materialCompletionPercentage = 100. -/
def completedOneRecord : ProgressRecord :=
  updateMaterialProgress (calculateForStudent oneMaterialWorld 0) 1 "completed" 0

/-- The record after the single material is unpublished and the calculation
rerun: totalMaterials drops to 0 and the recount zeroes completedMaterials. -/
def staleAfterRecalc : ProgressRecord :=
  calculateForStudent { oneMaterialWorld with materials := [], progress := some completedOneRecord } 0

/-- C6 counterexample: after the recalculation with zero published materials
the saved record keeps the stale 100 percent instead of the 0 the claim
requires for a zero total. -/
theorem stale_percentage_retained :
    staleAfterRecalc.totalMaterials = 0 ∧
    staleAfterRecalc.materialCompletionPercentage = 100 := by
  constructor
  · decide
  · norm_num [staleAfterRecalc, completedOneRecord, calculateForStudent, calcBase,
      oneMaterialWorld, updateMaterialProgress, updateFirstBy, preSave,
      updateRiskAssessment, riskFactorsFor, daysSinceLastActive, mval, aval, sval]

/-- The record of oneMaterialWorld after completion updates for material 1 and
for two further material ids not among the published materials: the service
pushes them, so completedMaterials = 3 exceeds totalMaterials = 1. -/
def overfullRecord : ProgressRecord :=
  updateMaterialProgress (updateMaterialProgress completedOneRecord 2 "completed" 0) 3 "completed" 0

/-- C2 counterexample: a record saved by the service with completedMaterials =
3 and totalMaterials = 1 has materialCompletionPercentage = 300 and
overallProgress = 120, outside [0,100]. -/
theorem overall_progress_exceeds_100 :
    overfullRecord.overallProgress = 120 ∧ ¬(overfullRecord.overallProgress ≤ 100) := by
  have h : overfullRecord.overallProgress = 120 := by
    norm_num [overfullRecord, completedOneRecord, calculateForStudent, calcBase,
      oneMaterialWorld, updateMaterialProgress, updateFirstBy, preSave,
      updateRiskAssessment, riskFactorsFor, daysSinceLastActive, mval, aval, sval]
  refine ⟨h, ?_⟩
  rw [h]
  norm_num

theorem ratio_pct_bounds (c t : Nat) (hle : c ≤ t) (ht : 0 < t) :
    0 ≤ (c : ℚ) / (t : ℚ) * 100 ∧ (c : ℚ) / (t : ℚ) * 100 ≤ 100 := by
  have ht' : (0 : ℚ) < (t : ℚ) := by exact_mod_cast ht
  constructor
  · positivity
  · have h1 : (c : ℚ) / (t : ℚ) ≤ 1 := (div_le_one ht').mpr (by exact_mod_cast hle)
    nlinarith

/-- C2 amended: after any save overallProgress equals the 0.4/0.2/0.4 weighted
sum of the three category percentages, and it lies in [0,100] provided each
completed count does not exceed its total and the stored percentages (which
are retained when a total is 0) are themselves in [0,100]. -/
theorem overall_weighted_sum (now : Nat) (r : ProgressRecord)
    (hm : r.completedMaterials ≤ r.totalMaterials)
    (hs : r.attendedSessions ≤ r.totalSessions)
    (ha : r.submittedAssignments ≤ r.totalAssignments)
    (hmp : 0 ≤ r.materialCompletionPercentage ∧ r.materialCompletionPercentage ≤ 100)
    (hap : 0 ≤ r.attendancePercentage ∧ r.attendancePercentage ≤ 100)
    (hsp : 0 ≤ r.assignmentCompletionPercentage ∧ r.assignmentCompletionPercentage ≤ 100) :
    (preSave now r).overallProgress =
      (preSave now r).materialCompletionPercentage * (4 / 10) +
      (preSave now r).attendancePercentage * (2 / 10) +
      (preSave now r).assignmentCompletionPercentage * (4 / 10) ∧
    0 ≤ (preSave now r).overallProgress ∧ (preSave now r).overallProgress ≤ 100 := by
  have hmv : 0 ≤ mval r ∧ mval r ≤ 100 := by
    unfold mval
    split
    · exact ratio_pct_bounds _ _ hm (by assumption)
    · exact hmp
  have hav : 0 ≤ aval r ∧ aval r ≤ 100 := by
    unfold aval
    split
    · exact ratio_pct_bounds _ _ hs (by assumption)
    · exact hap
  have hsv : 0 ≤ sval r ∧ sval r ≤ 100 := by
    unfold sval
    split
    · exact ratio_pct_bounds _ _ ha (by assumption)
    · exact hsp
  refine ⟨rfl, ?_, ?_⟩ <;> rw [preSave_overall]
  · have := hmv.1; have := hav.1; have := hsv.1
    linarith
  · have := hmv.2; have := hav.2; have := hsv.2
    linarith

/- Projections of the freshly rebuilt document, in both the create and the
   update branch of calculateForStudent. -/

@[simp] theorem calcBase_totalMaterials (w : World) (now : Nat) :
    (calcBase w now).totalMaterials = (w.materials.filter (·.isPublished)).length := by
  cases hw : w.progress <;> simp [calcBase, hw]

@[simp] theorem calcBase_completedMaterials (w : World) (now : Nat) :
    (calcBase w now).completedMaterials = 0 := by
  cases hw : w.progress <;> simp [calcBase, hw]

@[simp] theorem calcBase_totalSessions (w : World) (now : Nat) :
    (calcBase w now).totalSessions =
      (w.sessions.filter (fun s => s.status == "completed" || s.status == "ongoing")).length := by
  cases hw : w.progress <;> simp [calcBase, hw]

@[simp] theorem calcBase_attendedSessions (w : World) (now : Nat) :
    (calcBase w now).attendedSessions = 0 := by
  cases hw : w.progress <;> simp [calcBase, hw]

@[simp] theorem calcBase_totalAssignments (w : World) (now : Nat) :
    (calcBase w now).totalAssignments = (w.assignments.filter (·.isPublished)).length := by
  cases hw : w.progress <;> simp [calcBase, hw]

@[simp] theorem calcBase_submittedAssignments (w : World) (now : Nat) :
    (calcBase w now).submittedAssignments =
      ((assignmentProgressOf w).filter (fun ap => ap.status != "not_started")).length := by
  cases hw : w.progress <;> simp [calcBase, hw]

theorem calcBase_materialPct (w : World) (now : Nat) (p : ProgressRecord)
    (hw : w.progress = some p) :
    (calcBase w now).materialCompletionPercentage = p.materialCompletionPercentage := by
  simp [calcBase, hw]

theorem calcBase_attendancePct (w : World) (now : Nat) (p : ProgressRecord)
    (hw : w.progress = some p) :
    (calcBase w now).attendancePercentage = p.attendancePercentage := by
  simp [calcBase, hw]

theorem calcBase_assignmentPct (w : World) (now : Nat) (p : ProgressRecord)
    (hw : w.progress = some p) :
    (calcBase w now).assignmentCompletionPercentage = p.assignmentCompletionPercentage := by
  simp [calcBase, hw]

theorem calcBase_lastActive (w : World) (now : Nat) (p : ProgressRecord)
    (hw : w.progress = some p) :
    (calcBase w now).lastActive = p.lastActive := by
  simp [calcBase, hw]

theorem calcBase_currentStreak (w : World) (now : Nat) (p : ProgressRecord)
    (hw : w.progress = some p) :
    (calcBase w now).currentStreak = p.currentStreak := by
  simp [calcBase, hw]

/- The service path preSave (updateStreak (calculateForStudent ..)) seen
   through the percentage values. -/

theorem pcts_after_service (w : World) (t : Nat) :
    ((preSave t (updateStreak t (calculateForStudent w t))).materialCompletionPercentage
        = mval (calcBase w t)) ∧
    ((preSave t (updateStreak t (calculateForStudent w t))).attendancePercentage
        = aval (calcBase w t)) ∧
    ((preSave t (updateStreak t (calculateForStudent w t))).assignmentCompletionPercentage
        = sval (calcBase w t)) := by
  refine ⟨?_, ?_, ?_⟩ <;> simp [calculateForStudent]

theorem risk_after_service (w : World) (t : Nat) :
    (preSave t (updateStreak t (calculateForStudent w t))).riskFactors =
      riskFactorsFor t (aval (calcBase w t)) (mval (calcBase w t)) (sval (calcBase w t)) 0 := by
  rw [preSave_riskFactors]
  simp [calculateForStudent, daysSinceLastActive]

theorem riskFactorsFor_pairs (n1 n2 : Nat) (a m s : ℚ) (d : Nat) :
    (riskFactorsFor n1 a m s d).map (fun f => (f.factor, f.severity)) =
      (riskFactorsFor n2 a m s d).map (fun f => (f.factor, f.severity)) := by
  unfold riskFactorsFor
  split_ifs <;> simp

/-- C2 witness: the weighted-sum and range facts at a concrete record. -/
theorem overall_weighted_sum_witness :
    ((preSave 0 sampleProgress).overallProgress =
      (preSave 0 sampleProgress).materialCompletionPercentage * (4 / 10) +
      (preSave 0 sampleProgress).attendancePercentage * (2 / 10) +
      (preSave 0 sampleProgress).assignmentCompletionPercentage * (4 / 10)) ∧
    0 ≤ (preSave 0 sampleProgress).overallProgress ∧
    (preSave 0 sampleProgress).overallProgress ≤ 100 :=
  overall_weighted_sum 0 sampleProgress (by decide) (by decide) (by decide)
    (by decide) (by decide) (by decide)

theorem riskFactorsFor_no_inactive (n : Nat) (a m s : ℚ) (d : Nat) (hd : d ≤ 7) :
    ∀ f ∈ riskFactorsFor n a m s d, f.factor ≠ "inactive_for_7_days" := by
  intro f hf
  have h7 : ¬(7 < d) := by omega
  unfold riskFactorsFor at hf
  split_ifs at hf <;> simp_all <;> aesop

/-- C10: a successful calculateStudentProgress call returns and persists a
record whose lastActive is the time of the call, so the days-since-last-active
risk rule cannot fire through this path: updateStreak resets lastActive to now
before the final save recomputes the risk assessment. -/
theorem calculate_resets_lastActive (w : World) (now : Nat)
    (hen : w.enrollmentActive = true) :
    ∃ p w2, calculateStudentProgress w now = .ok (p, w2) ∧
      w2.progress = some p ∧
      p.lastActive = some now ∧
      ∀ f ∈ p.riskFactors, f.factor ≠ "inactive_for_7_days" := by
  refine ⟨preSave now (updateStreak now (calculateForStudent w now)),
    { w with progress := some (preSave now (updateStreak now (calculateForStudent w now))) },
    ?_, rfl, ?_, ?_⟩
  · simp [calculateStudentProgress, hen]
  · simp
  · rw [risk_after_service w now]
    exact riskFactorsFor_no_inactive now _ _ _ 0 (by omega)

/- Stability of the recomputed percentages across a second run over unchanged
   collections: either the total is positive and both runs recompute the same
   ratio, or the total is 0 and the second run retains the value the first run
   stored. -/

theorem mval_calcBase_stable (w v : World) (t1 t2 : Nat) (p : ProgressRecord)
    (hm : v.materials = w.materials) (hv : v.progress = some p)
    (hp : p.materialCompletionPercentage = mval (calcBase w t1)) :
    mval (calcBase v t2) = mval (calcBase w t1) := by
  by_cases h : 0 < (w.materials.filter (·.isPublished)).length
  · simp [mval, hm, h]
  · calc mval (calcBase v t2)
        = (calcBase v t2).materialCompletionPercentage := by simp [mval, hm, h]
      _ = p.materialCompletionPercentage := calcBase_materialPct v t2 p hv
      _ = mval (calcBase w t1) := hp

theorem aval_calcBase_stable (w v : World) (t1 t2 : Nat) (p : ProgressRecord)
    (hs : v.sessions = w.sessions) (hv : v.progress = some p)
    (hp : p.attendancePercentage = aval (calcBase w t1)) :
    aval (calcBase v t2) = aval (calcBase w t1) := by
  by_cases h : 0 < (w.sessions.filter
      (fun s => s.status == "completed" || s.status == "ongoing")).length
  · simp [aval, hs, h]
  · calc aval (calcBase v t2)
        = (calcBase v t2).attendancePercentage := by simp [aval, hs, h]
      _ = p.attendancePercentage := calcBase_attendancePct v t2 p hv
      _ = aval (calcBase w t1) := hp

theorem sval_calcBase_stable (w v : World) (t1 t2 : Nat) (p : ProgressRecord)
    (ha : v.assignments = w.assignments) (hsub : v.submissions = w.submissions)
    (hv : v.progress = some p)
    (hp : p.assignmentCompletionPercentage = sval (calcBase w t1)) :
    sval (calcBase v t2) = sval (calcBase w t1) := by
  by_cases h : 0 < (w.assignments.filter (·.isPublished)).length
  · simp [sval, assignmentProgressOf, ha, hsub, h]
  · calc sval (calcBase v t2)
        = (calcBase v t2).assignmentCompletionPercentage := by simp [sval, ha, h]
      _ = p.assignmentCompletionPercentage := calcBase_assignmentPct v t2 p hv
      _ = sval (calcBase w t1) := hp

/-- A same-day second service run leaves currentStreak unchanged: the stored
lastActive of the first run is on the same calendar day, so updateStreak takes
its day-difference-0 branch. -/
theorem streak_second (v : World) (t1 t2 : Nat) (p : ProgressRecord)
    (hv : v.progress = some p) (hpla : p.lastActive = some t1)
    (hd : dayOf t1 = dayOf t2) :
    (preSave t2 (updateStreak t2 (calculateForStudent v t2))).currentStreak =
      p.currentStreak := by
  rw [preSave_currentStreak]
  have hla : (calculateForStudent v t2).lastActive = some t1 := by
    rw [calculateForStudent, preSave_lastActive, calcBase_lastActive v t2 p hv, hpla]
  have h0 : dayOf t2 - dayOf t1 = 0 := by omega
  simp only [updateStreak, hla, h0, if_pos]
  rw [calculateForStudent, preSave_currentStreak, calcBase_currentStreak v t2 p hv]

/-- The core of C4: with the collections unchanged, the record persisted by a
second same-day service run agrees with the first run on every category
percentage, the overall progress, the (factor, severity) risk set, and the
current streak. -/
theorem service_second_run (w : World) (t1 t2 : Nat) (hday : dayOf t1 = dayOf t2) :
    let P1 := preSave t1 (updateStreak t1 (calculateForStudent w t1))
    let W1 : World := { w with progress := some P1 }
    let P2 := preSave t2 (updateStreak t2 (calculateForStudent W1 t2))
    P2.materialCompletionPercentage = P1.materialCompletionPercentage ∧
    P2.attendancePercentage = P1.attendancePercentage ∧
    P2.assignmentCompletionPercentage = P1.assignmentCompletionPercentage ∧
    P2.overallProgress = P1.overallProgress ∧
    P2.riskFactors.map (fun f => (f.factor, f.severity)) =
      P1.riskFactors.map (fun f => (f.factor, f.severity)) ∧
    P2.currentStreak = P1.currentStreak := by
  intro P1 W1 P2
  have hP1eq : P1 = preSave t1 (updateStreak t1 (calculateForStudent w t1)) := rfl
  have hP2eq : P2 = preSave t2 (updateStreak t2 (calculateForStudent W1 t2)) := rfl
  have g2m : P1.materialCompletionPercentage = mval (calcBase w t1) :=
    (pcts_after_service w t1).1
  have g2a : P1.attendancePercentage = aval (calcBase w t1) :=
    (pcts_after_service w t1).2.1
  have g2s : P1.assignmentCompletionPercentage = sval (calcBase w t1) :=
    (pcts_after_service w t1).2.2
  have g1m : P2.materialCompletionPercentage = mval (calcBase W1 t2) :=
    (pcts_after_service W1 t2).1
  have g1a : P2.attendancePercentage = aval (calcBase W1 t2) :=
    (pcts_after_service W1 t2).2.1
  have g1s : P2.assignmentCompletionPercentage = sval (calcBase W1 t2) :=
    (pcts_after_service W1 t2).2.2
  have e3m : mval (calcBase W1 t2) = mval (calcBase w t1) :=
    mval_calcBase_stable w W1 t1 t2 P1 rfl rfl g2m
  have e3a : aval (calcBase W1 t2) = aval (calcBase w t1) :=
    aval_calcBase_stable w W1 t1 t2 P1 rfl rfl g2a
  have e3s : sval (calcBase W1 t2) = sval (calcBase w t1) :=
    sval_calcBase_stable w W1 t1 t2 P1 rfl rfl rfl g2s
  have hpla : P1.lastActive = some t1 := by
    rw [hP1eq, preSave_lastActive, updateStreak_lastActive]
  have o2 : P2.overallProgress = mval (calcBase W1 t2) * (4 / 10) +
      aval (calcBase W1 t2) * (2 / 10) + sval (calcBase W1 t2) * (4 / 10) := by
    rw [hP2eq, preSave_overall]
    simp [calculateForStudent]
  have o1 : P1.overallProgress = mval (calcBase w t1) * (4 / 10) +
      aval (calcBase w t1) * (2 / 10) + sval (calcBase w t1) * (4 / 10) := by
    rw [hP1eq, preSave_overall]
    simp [calculateForStudent]
  have r2 : P2.riskFactors = riskFactorsFor t2 (aval (calcBase W1 t2))
      (mval (calcBase W1 t2)) (sval (calcBase W1 t2)) 0 := risk_after_service W1 t2
  have r1 : P1.riskFactors = riskFactorsFor t1 (aval (calcBase w t1))
      (mval (calcBase w t1)) (sval (calcBase w t1)) 0 := risk_after_service w t1
  refine ⟨?_, ?_, ?_, ?_, ?_, ?_⟩
  · rw [g1m, e3m, ← g2m]
  · rw [g1a, e3a, ← g2a]
  · rw [g1s, e3s, ← g2s]
  · rw [o2, o1, e3m, e3a, e3s]
  · rw [r2, r1, e3m, e3a, e3s]
    exact riskFactorsFor_pairs t2 t1 _ _ _ 0
  · exact streak_second W1 t1 t2 P1 rfl hpla hday

/-- C4: two same-day calls of calculateStudentProgress with no change to the
underlying collections produce identical category and overall percentages and
the same (factor, severity) risk set, and the second run leaves currentStreak
unchanged. -/
theorem calculate_idempotent_same_day (w : World) (t1 t2 : Nat)
    (p1 p2 : ProgressRecord) (w1 w2 : World)
    (hen : w.enrollmentActive = true) (hday : dayOf t1 = dayOf t2) (hle : t1 ≤ t2)
    (h1 : calculateStudentProgress w t1 = .ok (p1, w1))
    (h2 : calculateStudentProgress w1 t2 = .ok (p2, w2)) :
    p2.materialCompletionPercentage = p1.materialCompletionPercentage ∧
    p2.attendancePercentage = p1.attendancePercentage ∧
    p2.assignmentCompletionPercentage = p1.assignmentCompletionPercentage ∧
    p2.overallProgress = p1.overallProgress ∧
    p2.riskFactors.map (fun f => (f.factor, f.severity)) =
      p1.riskFactors.map (fun f => (f.factor, f.severity)) ∧
    p2.currentStreak = p1.currentStreak := by
  unfold calculateStudentProgress at h1
  rw [if_pos hen] at h1
  simp only [Except.ok.injEq, Prod.mk.injEq] at h1
  obtain ⟨hp1, hw1⟩ := h1
  have hen1 : w1.enrollmentActive = true := by
    rw [← hw1]
    exact hen
  unfold calculateStudentProgress at h2
  rw [if_pos hen1] at h2
  simp only [Except.ok.injEq, Prod.mk.injEq] at h2
  obtain ⟨hp2, hw2⟩ := h2
  subst hw1
  subst hp1
  subst hp2
  exact service_second_run w t1 t2 hday

/-- The record and world persisted by a first service run on the one-material
world at time 0. -/
def run1Progress : ProgressRecord :=
  preSave 0 (updateStreak 0 (calculateForStudent oneMaterialWorld 0))

def run1World : World := { oneMaterialWorld with progress := some run1Progress }

/-- The record and world persisted by the same-day second run. -/
def run2Progress : ProgressRecord :=
  preSave 0 (updateStreak 0 (calculateForStudent run1World 0))

def run2World : World := { run1World with progress := some run2Progress }

/-- C4 witness: the two concrete same-day runs on the one-material world. -/
theorem calculate_idempotent_same_day_witness :
    run2Progress.materialCompletionPercentage = run1Progress.materialCompletionPercentage ∧
    run2Progress.attendancePercentage = run1Progress.attendancePercentage ∧
    run2Progress.assignmentCompletionPercentage = run1Progress.assignmentCompletionPercentage ∧
    run2Progress.overallProgress = run1Progress.overallProgress ∧
    run2Progress.riskFactors.map (fun f => (f.factor, f.severity)) =
      run1Progress.riskFactors.map (fun f => (f.factor, f.severity)) ∧
    run2Progress.currentStreak = run1Progress.currentStreak :=
  calculate_idempotent_same_day oneMaterialWorld 0 0 run1Progress run2Progress
    run1World run2World rfl rfl (Nat.le_refl 0) rfl rfl

/-- C10 witness: the call on the one-material world at time 5. -/
theorem calculate_resets_lastActive_witness :
    ∃ p w2, calculateStudentProgress oneMaterialWorld 5 = .ok (p, w2) ∧
      w2.progress = some p ∧
      p.lastActive = some 5 ∧
      ∀ f ∈ p.riskFactors, f.factor ≠ "inactive_for_7_days" :=
  calculate_resets_lastActive oneMaterialWorld 5 rfl

/- ===================== Token service: utils/tokenService.js =====================

   Refresh and access tokens are JWTs signed with fixed secrets; a JWT is a
   deterministic function of its payload, which here carries the user id, the
   device id (refresh only) and the issued-at second, with the expiry derived
   from the configured lifetime (7d for refresh, 15m for access by default).
   Two payload-equal tokens are the same string, and the embedding identifies
   a token with its payload.  Signature forgery is outside the model: every
   RefreshJwt value stands for a validly signed token, and verifyRefreshToken
   reduces to the expiry check. -/

def refreshLifetimeS : Nat := 604800

def accessLifetimeS : Nat := 900

structure RefreshJwt where
  userId : Nat
  deviceId : Nat
  iat : Nat
deriving DecidableEq

/-- The exp claim jwt.sign writes: iat + lifetime, in seconds. -/
def RefreshJwt.expiry (t : RefreshJwt) : Nat := t.iat + refreshLifetimeS

structure AccessJwt where
  userId : Nat
  role : String
  email : String
  iat : Nat
deriving DecidableEq

structure DeviceInfo where
  deviceId : Option Nat
  deviceName : Option String
  browser : Option String
  os : Option String
  ipAddress : Option String
  userAgent : Option String
deriving DecidableEq

/-- A RefreshTokenRecord subdocument of the User (models/User.js). -/
structure TokenRecord where
  token : RefreshJwt
  deviceId : Nat
  deviceName : String
  browser : String
  os : String
  ipAddress : String
  userAgent : String
  createdAt : Nat
  expiresAt : Nat
  lastUsedAt : Nat
  isActive : Bool
  revokedAt : Option Nat
  revokedReason : Option String
deriving DecidableEq

structure User where
  id : Nat
  role : String
  email : String
  refreshTokens : List TokenRecord
deriving DecidableEq

def generateAccessToken (u : User) (now : Nat) : AccessJwt :=
  { userId := u.id, role := u.role, email := u.email, iat := now / 1000 }

/-- generateRefreshToken: the device claim is deviceInfo.deviceId or fresh
random bytes (the freshDevice parameter). -/
def generateRefreshToken (u : User) (dev : DeviceInfo) (now : Nat)
    (freshDevice : Nat) : RefreshJwt :=
  { userId := u.id, deviceId := dev.deviceId.getD freshDevice, iat := now / 1000 }

/-- Stable insertion used to model the in-place numeric sort by lastUsedAt. -/
def insertByLastUsed (t : TokenRecord) : List TokenRecord → List TokenRecord
  | [] => [t]
  | x :: xs =>
    if t.lastUsedAt ≤ x.lastUsedAt then t :: x :: xs else x :: insertByLastUsed t xs

def sortByLastUsed : List TokenRecord → List TokenRecord
  | [] => []
  | x :: xs => insertByLastUsed x (sortByLastUsed xs)

/-- The refreshTokenDoc storeRefreshToken builds: expiresAt from the decoded
exp claim (always decodable here), device info defaulted, active. -/
def storedRecord (tok : RefreshJwt) (dev : DeviceInfo) (now : Nat)
    (freshDevice : Nat) : TokenRecord :=
  { token := tok,
    deviceId := dev.deviceId.getD freshDevice,
    deviceName := dev.deviceName.getD "Unknown Device",
    browser := dev.browser.getD "Unknown Browser",
    os := dev.os.getD "Unknown OS",
    ipAddress := dev.ipAddress.getD "Unknown",
    userAgent := dev.userAgent.getD "Unknown",
    createdAt := now, expiresAt := tok.expiry * 1000, lastUsedAt := now,
    isActive := true, revokedAt := none, revokedReason := none }

/-- storeRefreshToken (utils/tokenService.js lines 126-165): loads the
persisted user, builds the record, evicts the least-recently-used record when
the list is at the limit (sort by lastUsedAt then shift), appends, and saves. -/
def storeRefreshToken (maxTokens : Nat) (u : User) (tok : RefreshJwt)
    (dev : DeviceInfo) (now : Nat) (freshDevice : Nat) : User :=
  let rdoc := storedRecord tok dev now freshDevice
  let toks := u.refreshTokens
  let toks := if maxTokens ≤ toks.length then (sortByLastUsed toks).tail else toks
  { u with refreshTokens := toks ++ [rdoc] }

def generateTokenPair (maxTokens : Nat) (u : User) (dev : DeviceInfo) (now : Nat)
    (freshDevice1 freshDevice2 : Nat) : AccessJwt × RefreshJwt × User :=
  let accessToken := generateAccessToken u now
  let refreshToken := generateRefreshToken u dev now freshDevice1
  (accessToken, refreshToken, storeRefreshToken maxTokens u refreshToken dev now freshDevice2)

/-- The findIndex over user.refreshTokens for an active record holding exactly
this token string, paired with the record found. -/
def findActiveTokenIdx (old : RefreshJwt) : List TokenRecord → Option (Nat × TokenRecord)
  | [] => none
  | t :: ts =>
    if t.token == old && t.isActive then some (0, t)
    else (findActiveTokenIdx old ts).map (fun r => (r.1 + 1, r.2))

def modifyIdx (f : α → α) : Nat → List α → List α
  | _, [] => []
  | 0, x :: xs => f x :: xs
  | n + 1, x :: xs => x :: modifyIdx f n xs

/-- The fields rotateRefreshToken writes on the old record before its final
save: revoked with reason rotated, plus the optional device-info updates. -/
def applyRevokedRotation (dev : DeviceInfo) (now : Nat) (t : TokenRecord) : TokenRecord :=
  let t1 := { t with isActive := false, revokedAt := some now,
                     revokedReason := some "rotated" }
  let t2 := match dev.deviceName with
    | some n => { t1 with deviceName := n }
    | none => t1
  let t3 := match dev.browser with
    | some b => { t2 with browser := b }
    | none => t2
  match dev.os with
  | some o => { t3 with os := o }
  | none => t3

/-- rotateRefreshToken (utils/tokenService.js lines 170-228).  The store is the
single user the decoded id resolves to.  The source works on two separate
Mongoose documents of that user: the rotating instance marks the matched index
revoked in memory, then generateTokenPair reloads the persisted user (old
record still active) and saves it with the new record appended, and finally the
rotating instance saves its positional field updates on the matched index.  The
embedding applies those steps in that order; every error is wrapped in the
Token rotation failed prefix by the catch.  The returned value carries the new
pair; the final User is the persisted state. -/
def rotateRefreshToken (maxTokens : Nat) (db : User) (old : RefreshJwt)
    (dev : DeviceInfo) (now : Nat) (freshDevice1 freshDevice2 : Nat) :
    Except String (AccessJwt × RefreshJwt) × User :=
  if old.expiry ≤ now / 1000 then
    (.error "Token rotation failed: Invalid refresh token: jwt expired", db)
  else if db.id ≠ old.userId then
    (.error "Token rotation failed: User or refresh tokens not found", db)
  else
    match findActiveTokenIdx old db.refreshTokens with
    | none => (.error "Token rotation failed: Refresh token not found or revoked", db)
    | some (i, tokenDoc) =>
      if tokenDoc.expiresAt < now then
        (.error "Token rotation failed: Refresh token expired",
         { db with refreshTokens := db.refreshTokens.eraseIdx i })
      else
        let pair := generateTokenPair maxTokens db
          { dev with deviceId := some tokenDoc.deviceId } now freshDevice1 freshDevice2
        (.ok (pair.1, pair.2.1),
         { pair.2.2 with refreshTokens := (modifyIdx (applyRevokedRotation dev now) i
             pair.2.2.refreshTokens) })

/- ===================== Token blacklist: tokenService + TokenBlacklist.js ============

   A raw access token either decodes to its claims or is malformed
   (jwt.decode returns null).  The sha256 hash is modelled as an injective
   one-way map into a distinct key type. -/

structure AccessClaims where
  userId : Nat
  expClaim : Option Nat
deriving DecidableEq

inductive RawAccessToken where
  | jwt (claims : AccessClaims)
  | malformed (s : String)
deriving DecidableEq

def decodeToken : RawAccessToken → Option AccessClaims
  | .jwt c => some c
  | .malformed _ => none

structure TokenHash where
  preimage : RawAccessToken
deriving DecidableEq

def sha256 (t : RawAccessToken) : TokenHash := ⟨t⟩

structure BlacklistEntry where
  token : TokenHash
  expiresAt : Nat
  reason : String
deriving DecidableEq

/-- The blacklist expiry: the decoded exp claim in ms, or the 24h fallback
when the decoded payload has no exp. -/
def blacklistExpiry (c : AccessClaims) (now : Nat) : Nat :=
  match c.expClaim with
  | some e => e * 1000
  | none => now + 24 * 60 * 60 * 1000

/-- blacklistAccessToken (utils/tokenService.js lines 326-344): returns false
without storing anything when the token does not decode; otherwise stores the
hash with the blacklist expiry. -/
def blacklistAccessToken (store : List BlacklistEntry) (t : RawAccessToken)
    (reason : String) (now : Nat) : Bool × List BlacklistEntry :=
  match decodeToken t with
  | none => (false, store)
  | some c =>
    (true, store ++ [{ token := sha256 t, expiresAt := blacklistExpiry c now, reason := reason }])

/-- isAccessTokenBlacklisted (utils/tokenService.js lines 349-364): findOne on
the hash with expiresAt strictly greater than now. -/
def isAccessTokenBlacklisted (store : List BlacklistEntry) (t : RawAccessToken)
    (now : Nat) : Bool :=
  store.any (fun e => e.token == sha256 t && decide (now < e.expiresAt))

/- Lemmas about the rotation helpers. -/

theorem findActiveTokenIdx_eq_none (old : RefreshJwt) (l : List TokenRecord) :
    findActiveTokenIdx old l = none ↔
      ∀ t ∈ l, (t.token == old && t.isActive) = false := by
  induction l with
  | nil => simp [findActiveTokenIdx]
  | cons x xs ih =>
    by_cases h : (x.token == old && x.isActive) = true
    · simp only [findActiveTokenIdx, h, if_true]
      constructor
      · intro hcontra
        exact absurd hcontra (by simp)
      · intro hall
        exact absurd (hall x (List.mem_cons_self x xs)) (by simp [h])
    · simp only [findActiveTokenIdx, h, if_false, Bool.false_eq_true, Option.map_eq_none',
        List.mem_cons]
      constructor
      · intro hn t ht
        rcases ht with rfl | ht
        · simpa using h
        · exact (ih.mp hn) t ht
      · intro hall
        exact ih.mpr (fun t ht => hall t (Or.inr ht))

theorem findActiveTokenIdx_spec (old : RefreshJwt) (l : List TokenRecord) :
    ∀ (i : Nat) (d : TokenRecord), findActiveTokenIdx old l = some (i, d) →
      l[i]? = some d ∧ (d.token == old && d.isActive) = true := by
  induction l with
  | nil => intro i d h; simp [findActiveTokenIdx] at h
  | cons x xs ih =>
    intro i d h
    by_cases hx : (x.token == old && x.isActive) = true
    · simp only [findActiveTokenIdx, hx, if_true, Option.some.injEq, Prod.mk.injEq] at h
      obtain ⟨hi, hd⟩ := h
      subst hd
      simp [← hi, hx]
    · simp only [findActiveTokenIdx, hx, if_false, Bool.false_eq_true,
        Option.map_eq_some'] at h
      obtain ⟨⟨j, e⟩, hrec, hje⟩ := h
      injection hje with hj he
      subst he
      obtain ⟨hget, hpred⟩ := ih j e hrec
      refine ⟨?_, hpred⟩
      rw [← hj]
      simpa using hget

theorem modifyIdx_getElem? (f : α → α) (i j : Nat) (l : List α) :
    (modifyIdx f i l)[j]? = if i = j then (l[j]?).map f else l[j]? := by
  induction l generalizing i j with
  | nil => simp [modifyIdx]
  | cons x xs ih =>
    cases i with
    | zero =>
      cases j with
      | zero => simp [modifyIdx]
      | succ m => simp [modifyIdx]
    | succ n =>
      cases j with
      | zero => simp [modifyIdx]
      | succ m => simpa [modifyIdx] using ih n m

theorem applyRevokedRotation_token (dev : DeviceInfo) (now : Nat) (t : TokenRecord) :
    (applyRevokedRotation dev now t).token = t.token := by
  unfold applyRevokedRotation
  cases dev.deviceName <;> cases dev.browser <;> cases dev.os <;> rfl

theorem applyRevokedRotation_isActive (dev : DeviceInfo) (now : Nat) (t : TokenRecord) :
    (applyRevokedRotation dev now t).isActive = false := by
  unfold applyRevokedRotation
  cases dev.deviceName <;> cases dev.browser <;> cases dev.os <;> rfl

theorem applyRevokedRotation_reason (dev : DeviceInfo) (now : Nat) (t : TokenRecord) :
    (applyRevokedRotation dev now t).revokedReason = some "rotated" := by
  unfold applyRevokedRotation
  cases dev.deviceName <;> cases dev.browser <;> cases dev.os <;> rfl

/-- The persisted user after a successful rotation at index i: the store saved
the appended record (no eviction), and the rotating document then saved its
positional updates over the matched index. -/
def rotatedUser (db : User) (dev : DeviceInfo) (now i : Nat) (tdoc : TokenRecord)
    (f1 f2 : Nat) : User :=
  let devKeep : DeviceInfo := { dev with deviceId := some tdoc.deviceId }
  let rnew := generateRefreshToken db devKeep now f1
  { db with refreshTokens := (modifyIdx (applyRevokedRotation dev now) i
      (db.refreshTokens ++ [storedRecord rnew devKeep now f2])) }

theorem rotate_success_eq (maxTokens : Nat) (db : User) (old : RefreshJwt)
    (dev : DeviceInfo) (now f1 f2 : Nat) (i : Nat) (tdoc : TokenRecord)
    (hjwt : now / 1000 < old.iat + refreshLifetimeS)
    (hid : db.id = old.userId)
    (hfind : findActiveTokenIdx old db.refreshTokens = some (i, tdoc))
    (hnexp : now ≤ tdoc.expiresAt)
    (hcap : db.refreshTokens.length < maxTokens) :
    rotateRefreshToken maxTokens db old dev now f1 f2 =
      (.ok (generateAccessToken db now,
            generateRefreshToken db { dev with deviceId := some tdoc.deviceId } now f1),
       rotatedUser db dev now i tdoc f1 f2) := by
  have hnot1 : ¬(old.expiry ≤ now / 1000) := by
    unfold RefreshJwt.expiry
    omega
  have hnot2 : ¬(db.id ≠ old.userId) := by simp [hid]
  have hnot3 : ¬(tdoc.expiresAt < now) := by omega
  have hnoevict : ¬(maxTokens ≤ db.refreshTokens.length) := by omega
  unfold rotateRefreshToken
  rw [if_neg hnot1, if_neg hnot2, hfind]
  simp [hnot3, generateTokenPair, storeRefreshToken, hnoevict, rotatedUser,
    generateRefreshToken, generateAccessToken]

/-- C1 amended: a successful rotation of a uniquely stored, unexpired, active
refresh token (with the user below the per-user record limit, so no eviction
reorders the list, and at a strictly later second than the token was issued,
so the reissued JWT differs from the old one) marks the old record inactive
with reason rotated, appends a new active record reusing the same deviceId and
holding the returned refresh token, and leaves no active record holding the
old token: any further rotation with the old token fails with the
RefreshTokenNotFound error. -/
theorem rotate_rotates_and_blocks_replay (maxTokens : Nat) (db : User)
    (old : RefreshJwt) (dev : DeviceInfo) (now f1 f2 : Nat) (i : Nat)
    (tdoc : TokenRecord)
    (hjwt : now / 1000 < old.iat + refreshLifetimeS)
    (hid : db.id = old.userId)
    (hfind : findActiveTokenIdx old db.refreshTokens = some (i, tdoc))
    (hnexp : now ≤ tdoc.expiresAt)
    (hcap : db.refreshTokens.length < maxTokens)
    (hfresh : old.iat < now / 1000)
    (huniq : ∀ j : Fin db.refreshTokens.length,
      (db.refreshTokens.get j).token = old → j.val = i) :
    (∃ p, (rotateRefreshToken maxTokens db old dev now f1 f2).1 = .ok p) ∧
    ((rotateRefreshToken maxTokens db old dev now f1 f2).2.refreshTokens[i]?.map
        (fun t => (t.token, t.isActive, t.revokedReason)) =
      some (old, false, some "rotated")) ∧
    (∃ t ∈ (rotateRefreshToken maxTokens db old dev now f1 f2).2.refreshTokens,
      t.isActive = true ∧ t.deviceId = tdoc.deviceId ∧
      (rotateRefreshToken maxTokens db old dev now f1 f2).1 =
        .ok (generateAccessToken db now, t.token)) ∧
    findActiveTokenIdx old
      (rotateRefreshToken maxTokens db old dev now f1 f2).2.refreshTokens = none ∧
    (∀ dev2 now2 g1 g2, now2 / 1000 < old.iat + refreshLifetimeS →
      (rotateRefreshToken maxTokens (rotateRefreshToken maxTokens db old dev now f1 f2).2
          old dev2 now2 g1 g2).1 =
        .error "Token rotation failed: Refresh token not found or revoked") := by
  have hR := rotate_success_eq maxTokens db old dev now f1 f2 i tdoc hjwt hid hfind
    hnexp hcap
  obtain ⟨hget, hpred⟩ := findActiveTokenIdx_spec old db.refreshTokens i tdoc hfind
  have htok : tdoc.token = old := by
    rw [Bool.and_eq_true] at hpred
    exact beq_iff_eq.mp hpred.1
  obtain ⟨hi, hgeti⟩ := List.getElem?_eq_some.mp hget
  have hrnew_ne : generateRefreshToken db { dev with deviceId := some tdoc.deviceId }
      now f1 ≠ old := by
    intro hcontra
    have : (generateRefreshToken db { dev with deviceId := some tdoc.deviceId }
        now f1).iat = old.iat := by rw [hcontra]
    simp only [generateRefreshToken] at this
    omega
  have hnone : findActiveTokenIdx old
      (rotatedUser db dev now i tdoc f1 f2).refreshTokens = none := by
    rw [findActiveTokenIdx_eq_none]
    intro t ht
    rw [List.mem_iff_getElem?] at ht
    obtain ⟨j, hj⟩ := ht
    simp only [rotatedUser] at hj
    rw [modifyIdx_getElem?] at hj
    by_cases hij : i = j
    · rw [if_pos hij, List.getElem?_append, ← hij, if_pos hi, hget] at hj
      have hjt : applyRevokedRotation dev now tdoc = t := by simpa using hj
      rw [← hjt]
      simp [applyRevokedRotation_isActive]
    · rw [if_neg hij, List.getElem?_append] at hj
      by_cases hjl : j < db.refreshTokens.length
      · rw [if_pos hjl] at hj
        obtain ⟨hlt, heq⟩ := List.getElem?_eq_some.mp hj
        have hne : t.token ≠ old := by
          intro hcontra
          exact hij ((huniq ⟨j, hjl⟩ (by rw [List.get_eq_getElem, heq, hcontra])).symm)
        simp [hne]
      · rw [if_neg hjl] at hj
        by_cases hj0 : j - db.refreshTokens.length = 0
        · rw [hj0] at hj
          have hts : storedRecord (generateRefreshToken db
              { dev with deviceId := some tdoc.deviceId } now f1)
              { dev with deviceId := some tdoc.deviceId } now f2 = t := by simpa using hj
          rw [← hts]
          simp [storedRecord, hrnew_ne]
        · rw [List.getElem?_eq_none (by simp; omega)] at hj
          exact absurd hj (by simp)
  have hold : (rotatedUser db dev now i tdoc f1 f2).refreshTokens[i]?.map
      (fun t => (t.token, t.isActive, t.revokedReason)) =
        some (old, false, some "rotated") := by
    simp only [rotatedUser]
    rw [modifyIdx_getElem?, if_pos rfl, List.getElem?_append, if_pos hi, hget]
    simp [applyRevokedRotation_token, applyRevokedRotation_isActive,
      applyRevokedRotation_reason, htok]
  have hnew : ∃ t ∈ (rotatedUser db dev now i tdoc f1 f2).refreshTokens,
      t.isActive = true ∧ t.deviceId = tdoc.deviceId ∧
      t.token = generateRefreshToken db { dev with deviceId := some tdoc.deviceId }
        now f1 := by
    refine ⟨storedRecord (generateRefreshToken db
        { dev with deviceId := some tdoc.deviceId } now f1)
        { dev with deviceId := some tdoc.deviceId } now f2, ?_, rfl, rfl, rfl⟩
    rw [List.mem_iff_getElem?]
    refine ⟨db.refreshTokens.length, ?_⟩
    simp only [rotatedUser]
    rw [modifyIdx_getElem?, if_neg (by omega), List.getElem?_concat_length]
  have hreplay : ∀ dev2 now2 g1 g2, now2 / 1000 < old.iat + refreshLifetimeS →
      (rotateRefreshToken maxTokens (rotatedUser db dev now i tdoc f1 f2)
          old dev2 now2 g1 g2).1 =
        .error "Token rotation failed: Refresh token not found or revoked" := by
    intro dev2 now2 g1 g2 h2
    unfold rotateRefreshToken
    rw [if_neg (show ¬(old.expiry ≤ now2 / 1000) by unfold RefreshJwt.expiry; omega)]
    rw [if_neg (show ¬((rotatedUser db dev now i tdoc f1 f2).id ≠ old.userId) by
      simp [rotatedUser, hid])]
    rw [hnone]
  rw [hR]
  obtain ⟨t, htmem, hta, htd, httok⟩ := hnew
  exact ⟨⟨_, rfl⟩, hold, ⟨t, htmem, hta, htd, by rw [httok]⟩, hnone, hreplay⟩

/-- A refresh token issued at second 100 for user 1 on device 7. -/
def c1Old : RefreshJwt := { userId := 1, deviceId := 7, iat := 100 }

/-- Its stored active record: expiresAt = (100 + 604800) * 1000. -/
def c1Record : TokenRecord :=
  { token := c1Old, deviceId := 7, deviceName := "Chrome on Mac", browser := "Chrome",
    os := "macOS", ipAddress := "10.0.0.1", userAgent := "UA", createdAt := 100000,
    expiresAt := 604900000, lastUsedAt := 100000, isActive := true,
    revokedAt := none, revokedReason := none }

def c1User : User :=
  { id := 1, role := "student", email := "student1", refreshTokens := [c1Record] }

def c1Dev : DeviceInfo :=
  { deviceId := none, deviceName := none, browser := none, os := none,
    ipAddress := none, userAgent := none }

/-- C1 witness: the rotation facts at the concrete single-token user, rotated
100 seconds after issuance. -/
theorem rotate_rotates_and_blocks_replay_witness :
    (∃ p, (rotateRefreshToken 5 c1User c1Old c1Dev 200000 11 12).1 = .ok p) ∧
    ((rotateRefreshToken 5 c1User c1Old c1Dev 200000 11 12).2.refreshTokens[0]?.map
        (fun t => (t.token, t.isActive, t.revokedReason)) =
      some (c1Old, false, some "rotated")) ∧
    (∃ t ∈ (rotateRefreshToken 5 c1User c1Old c1Dev 200000 11 12).2.refreshTokens,
      t.isActive = true ∧ t.deviceId = c1Record.deviceId ∧
      (rotateRefreshToken 5 c1User c1Old c1Dev 200000 11 12).1 =
        .ok (generateAccessToken c1User 200000, t.token)) ∧
    findActiveTokenIdx c1Old
      (rotateRefreshToken 5 c1User c1Old c1Dev 200000 11 12).2.refreshTokens = none ∧
    (∀ dev2 now2 g1 g2, now2 / 1000 < c1Old.iat + refreshLifetimeS →
      (rotateRefreshToken 5 (rotateRefreshToken 5 c1User c1Old c1Dev 200000 11 12).2
          c1Old dev2 now2 g1 g2).1 =
        .error "Token rotation failed: Refresh token not found or revoked") :=
  rotate_rotates_and_blocks_replay 5 c1User c1Old c1Dev 200000 11 12 0 c1Record
    (by decide) rfl (by decide) (by decide) (by decide) (by decide) (by decide)

def rotationOutcomeOk (r : Except String (AccessJwt × RefreshJwt) × User) : Bool :=
  match r.1 with
  | .ok _ => true
  | .error _ => false

/-- C1 counterexample: rotating within the same second as the issuance of the
old token succeeds, but jwt.sign regenerates a byte-identical token (same
payload, device and iat, same secret), so the freshly stored active record
holds the old token string and a second rotateRefresh with the OLD token
succeeds instead of failing with RefreshTokenNotFound. -/
theorem rotate_same_second_replay :
    rotationOutcomeOk (rotateRefreshToken 5 c1User c1Old c1Dev 100000 11 12) = true ∧
    rotationOutcomeOk (rotateRefreshToken 5
      (rotateRefreshToken 5 c1User c1Old c1Dev 100000 11 12).2
      c1Old c1Dev 100000 13 14) = true := by
  decide

/- C9 theorems. -/

/-- C9 counterexample: blacklisting an undecodable token stores nothing and
returns false, and isBlacklisted stays false immediately afterwards — the
claim requires a fallback-window entry that makes it true. -/
theorem blacklist_undecodable_not_stored :
    (blacklistAccessToken [] (.malformed "not-a-jwt") "logout" 0).1 = false ∧
    (blacklistAccessToken [] (.malformed "not-a-jwt") "logout" 0).2 = [] ∧
    isAccessTokenBlacklisted
      (blacklistAccessToken [] (.malformed "not-a-jwt") "logout" 0).2
      (.malformed "not-a-jwt") 0 = false := by
  decide

/-- C9 amended: for a token that decodes (and is not already blacklisted),
blacklistAccess stores an entry keyed by the sha256 hash with expiresAt = the
token exp claim, or the now + 24h fallback when the decoded payload lacks exp;
afterwards isBlacklisted is true exactly while the time is strictly before
that expiresAt.  Undecodable tokens are not stored at all (see the
counterexample). -/
theorem blacklist_window (store : List BlacklistEntry) (t : RawAccessToken)
    (reason : String) (now : Nat) (c : AccessClaims)
    (hdec : decodeToken t = some c)
    (hfreshStore : ∀ e ∈ store, e.token ≠ sha256 t) :
    (blacklistAccessToken store t reason now).1 = true ∧
    ({ token := sha256 t, expiresAt := blacklistExpiry c now, reason := reason } :
        BlacklistEntry) ∈ (blacklistAccessToken store t reason now).2 ∧
    (∀ now2, isAccessTokenBlacklisted (blacklistAccessToken store t reason now).2 t now2 =
      decide (now2 < blacklistExpiry c now)) := by
  have hsnd : (blacklistAccessToken store t reason now).2 =
      store ++ [{ token := sha256 t, expiresAt := blacklistExpiry c now, reason := reason }] := by
    simp [blacklistAccessToken, hdec]
  refine ⟨by simp [blacklistAccessToken, hdec], ?_, ?_⟩
  · rw [hsnd]
    simp
  · intro now2
    rw [hsnd]
    unfold isAccessTokenBlacklisted
    rw [List.any_append]
    have hmiss : store.any
        (fun e => e.token == sha256 t && decide (now2 < e.expiresAt)) = false := by
      rw [List.any_eq_false]
      intro e he
      simp [hfreshStore e he]
    rw [hmiss]
    simp

/-- C9 witness: a concrete decodable token with exp claim 10 s blacklisted at
time 0 into an empty store. -/
theorem blacklist_window_witness :
    (blacklistAccessToken [] (.jwt { userId := 1, expClaim := some 10 }) "logout" 0).1 = true ∧
    ({ token := sha256 (.jwt { userId := 1, expClaim := some 10 }),
       expiresAt := blacklistExpiry { userId := 1, expClaim := some 10 } 0,
       reason := "logout" } : BlacklistEntry) ∈
      (blacklistAccessToken [] (.jwt { userId := 1, expClaim := some 10 }) "logout" 0).2 ∧
    (∀ now2, isAccessTokenBlacklisted
      (blacklistAccessToken [] (.jwt { userId := 1, expClaim := some 10 }) "logout" 0).2
      (.jwt { userId := 1, expClaim := some 10 }) now2 =
        decide (now2 < blacklistExpiry { userId := 1, expClaim := some 10 } 0)) :=
  blacklist_window [] (.jwt { userId := 1, expClaim := some 10 }) "logout" 0
    { userId := 1, expClaim := some 10 } rfl (by intro e he; cases he)

end ZatAcademy
